import Mathlib

/-!
# Verification of `flexLayout.c` (axelf4/flexLayout)

A shallow embedding of `src/flexLayout.c` and proofs about the claims of the
natural-language specification.

## Modelling conventions

* A C `float` is modelled as `Option ℚ` (`F` below): `none` stands for any
  non-finite value, in particular `NAN` (the `UNDEFINED` sentinel of
  `flexLayout.h`); `some q` is the finite value `q`, with exact rational
  arithmetic in place of IEEE rounding.
* Arithmetic on `F` propagates `none` the way NaN propagates in C; ordered
  comparisons involving `none` are `false` (as for NaN); an equality test
  `v != 0` and a truthiness test `if (v)` are both `fne0` (NaN compares
  unequal to `0`, so NaN is truthy).
* Division by zero (which in C produces an infinity) is mapped to `none` as
  well; no claim settled in this file performs a division by zero.
* A C `float`-to-`int` conversion truncates toward zero (`rtrunc`); converting
  a NaN is undefined behaviour in C, and the model arbitrarily picks `0`
  (`ftrunc none = 0`).  No claim settled in this file relies on that choice.
* The callback table `struct LayoutContext` is modelled by making the widget
  tree explicit: the container is a list of `Child`ren, each carrying its
  `FlexParams`, its mutable geometry, and a `measure` function standing for
  the host's recursive `layout` callback (it returns the width and height the
  child ends up with after being laid out under the given constraints).
* Every setter / `layout` invocation is also recorded in an effect trace
  (`Eff`), so that frame conditions (which fields of which widget are
  written) are provable.
* Line 116 of `flexLayout.c` reads `isFlex(child)` where `child` is the
  opaque widget pointer, not its `FlexParams`; the value obtained by
  reinterpreting the widget's memory as a `FlexParams` is host-dependent.
  The model carries it as an explicit per-child boolean field `memIsFlex`.
  A well-behaved instantiation sets `memIsFlex = isFlex params`.
-/

/-- A C `float`: `none` models NaN/`UNDEFINED` (and other non-finite values),
`some q` a finite value. -/
abbrev F : Type := Option ℚ

/-- `isUndefined` (flexLayout.c line 5): the value is the NaN sentinel. -/
def isUndefined : F → Bool
  | none => true
  | some _ => false

/-- Float addition; NaN propagates. -/
def fadd : F → F → F
  | some a, some b => some (a + b)
  | _, _ => none

/-- Float subtraction; NaN propagates. -/
def fsub : F → F → F
  | some a, some b => some (a - b)
  | _, _ => none

/-- Float multiplication; NaN propagates (note `0 * NaN = NaN` in C). -/
def fmul : F → F → F
  | some a, some b => some (a * b)
  | _, _ => none

/-- Float division; NaN propagates.  A division by zero yields an infinity in
C; the model conflates it with `none`. -/
def fdiv : F → F → F
  | some a, some b => if b = 0 then none else some (a / b)
  | _, _ => none

/-- `x < y` on floats: false whenever either side is NaN. -/
def flt : F → F → Bool
  | some a, some b => a < b
  | _, _ => false

/-- `x > y` on floats: false whenever either side is NaN. -/
def fgt : F → F → Bool
  | some a, some b => b < a
  | _, _ => false

/-- `x != 0`, which is also the C truthiness of a float condition `if (x)`.
NaN compares unequal to zero, so `fne0 none = true`. -/
def fne0 : F → Bool
  | some a => a ≠ 0
  | none => true

/-- Truncation of a rational toward zero, as a C float-to-int cast does. -/
def rtrunc (q : ℚ) : ℤ := if 0 ≤ q then ⌊q⌋ else ⌈q⌉

/-- Float-to-int conversion.  Converting NaN is undefined behaviour in C; the
model arbitrarily returns `0`. -/
def ftrunc : F → ℤ
  | some q => rtrunc q
  | none => 0

/-- `enum FlexDirection` (flexLayout.h). -/
inductive FlexDirection : Type
  | row
  | column
deriving DecidableEq, Repr

/-- `enum MeasureMode` (flexLayout.h). -/
inductive MeasureMode : Type
  | unspecified
  | exactly
  | atMost
deriving DecidableEq, Repr

/-- `enum Align` (flexLayout.h). -/
inductive Align : Type
  | start
  | end_
  | center
  | spaceBetween
  | spaceAround
  | stretch
deriving DecidableEq, Repr

/-- `struct FlexParams` (flexLayout.h).  Margins and `flex` are modelled as
exact rationals; `width`/`height` may be the `UNDEFINED` sentinel. -/
structure FlexParams : Type where
  align : Align
  flex : ℚ
  width : F
  height : F
  marginLeft : ℚ
  marginTop : ℚ
  marginRight : ℚ
  marginBottom : ℚ
deriving DecidableEq, Repr

/-- The mutable geometry fields of a widget (set through the context's
`setX`/`setY`/`setWidth`/`setHeight`). -/
structure Geom : Type where
  x : F
  y : F
  width : F
  height : F
deriving DecidableEq, Repr

/-- A child widget: its layout parameters, its current geometry, the host's
recursive `layout` callback for it (returning the width and height the child
has after being laid out under the given constraints), and the unspecified
boolean read by the type-confused `isFlex(child)` call at line 116 of
`flexLayout.c`. -/
structure Child : Type where
  params : FlexParams
  geom : Geom
  measure : F → MeasureMode → F → MeasureMode → F × F
  memIsFlex : Bool

/-- The widget an effect is applied to: the container itself or the child at
a given index. -/
inductive Target : Type
  | container
  | child (i : ℕ)
deriving DecidableEq, Repr

/-- One observable use of the `LayoutContext` capability set. -/
inductive Eff : Type
  | setX (t : Target) (v : F)
  | setY (t : Target) (v : F)
  | setWidth (t : Target) (v : F)
  | setHeight (t : Target) (v : F)
  | layout (t : Target) (w : F) (wm : MeasureMode) (h : F) (hm : MeasureMode)
deriving DecidableEq, Repr

/-- The widget an effect targets. -/
def Eff.targetOf : Eff → Target
  | .setX t _ => t
  | .setY t _ => t
  | .setWidth t _ => t
  | .setHeight t _ => t
  | .layout t _ _ _ _ => t

/-- `getPerpendicularAxis` (flexLayout.c line 9). -/
def getPerpendicularAxis : FlexDirection → FlexDirection
  | .row => .column
  | .column => .row

/-- The C ternary `axis == DIRECTION_ROW ? a : b`, used throughout. -/
def axisValue {α : Type} (axis : FlexDirection) (a b : α) : α :=
  match axis with
  | .row => a
  | .column => b

/-- `getLeadingMargin` (flexLayout.c line 13). -/
def getLeadingMargin (params : FlexParams) (axis : FlexDirection) : ℚ :=
  axisValue axis params.marginLeft params.marginTop

/-- `getTrailingMargin` (flexLayout.c line 17). -/
def getTrailingMargin (params : FlexParams) (axis : FlexDirection) : ℚ :=
  axisValue axis params.marginRight params.marginBottom

/-- `getMargin` (flexLayout.c line 21). -/
def getMargin (params : FlexParams) (axis : FlexDirection) : ℚ :=
  getLeadingMargin params axis + getTrailingMargin params axis

/-- `getStyleSize` (flexLayout.c line 25). -/
def getStyleSize (params : FlexParams) (axis : FlexDirection) : F :=
  axisValue axis params.width params.height

/-- `getLayoutSize` (flexLayout.c line 29), reading a widget's geometry. -/
def getLayoutSize (g : Geom) (axis : FlexDirection) : F :=
  axisValue axis g.width g.height

/-- Writing a widget's size on the given axis
(`mainAxis == DIRECTION_ROW ? setWidth : setHeight`). -/
def setLayoutSize (g : Geom) (axis : FlexDirection) (v : F) : Geom :=
  match axis with
  | .row => { g with width := v }
  | .column => { g with height := v }

/-- Writing a widget's coordinate on the given axis
(`axis == DIRECTION_ROW ? setX : setY`). -/
def setLayoutCoord (g : Geom) (axis : FlexDirection) (v : F) : Geom :=
  match axis with
  | .row => { g with x := v }
  | .column => { g with y := v }

/-- The trace event of a size write on the given axis. -/
def setSizeEff (axis : FlexDirection) (t : Target) (v : F) : Eff :=
  match axis with
  | .row => .setWidth t v
  | .column => .setHeight t v

/-- The trace event of a coordinate write on the given axis. -/
def setCoordEff (axis : FlexDirection) (t : Target) (v : F) : Eff :=
  match axis with
  | .row => .setX t v
  | .column => .setY t v

/-- `getAlign` (flexLayout.c line 33). -/
def getAlign (params : FlexParams) : Align := params.align

/-- `getFlex` (flexLayout.c line 37). -/
def getFlex (params : FlexParams) : ℚ := params.flex

/-- `isFlex` (flexLayout.c line 41). -/
def isFlex (params : FlexParams) : Bool := getFlex params ≠ 0

/-- `isFlexBasisAuto` (flexLayout.c line 45). -/
def isFlexBasisAuto (params : FlexParams) : Bool := getFlex params ≤ 0

/-- `getFlexGrowFactor` (flexLayout.c line 49). -/
def getFlexGrowFactor (params : FlexParams) : ℚ :=
  if 0 < getFlex params then getFlex params else 0

/-- `getFlexShrinkFactor` (flexLayout.c line 55). -/
def getFlexShrinkFactor (params : FlexParams) : ℚ :=
  if getFlex params < 0 then 1 else 0

/-! ## Pass 1: basis resolution (flexLayout.c lines 68-120) -/

/-- The accumulators of the basis-resolution loop (lines 69-70):
`sizeConsumed`, `totalFlexGrowFactors`, `totalFlexShrinkScaledFactors`. -/
structure BasisAcc : Type where
  sizeConsumed : F
  totalFlexGrowFactors : ℚ
  totalFlexShrinkScaledFactors : F

/-- Lines 74-114 for one child `c` at index `i`: resolve the basis, possibly
issuing a measurement layout call, and store the basis in the child's
main-axis dimension.  Returns the updated child, the basis, and the emitted
effects. -/
def resolveBasis (dir : FlexDirection) (width : F) (widthMode : MeasureMode)
    (height : F) (heightMode : MeasureMode) (i : ℕ) (c : Child) :
    Child × F × List Eff :=
  let params := c.params
  let availableMain := axisValue dir width height
  let styleSize := getStyleSize params dir
  let step :=
    match styleSize with
    | some s =>
      -- line 77: the main-axis style size is definite
      ((c, some s), ([] : List Eff))
    | none =>
      if !isFlexBasisAuto params && fne0 availableMain then
        -- line 79: non-auto flexible item in a "truthy" available space
        ((c, some 0), [])
      else
        -- lines 81-110: determine the base size by performing layout
        let align := getAlign params
        let cw :=
          match getStyleSize params .row with
          | some w => (some w, MeasureMode.exactly)
          | none =>
            if getPerpendicularAxis dir = FlexDirection.row ∧
                widthMode = MeasureMode.exactly ∧ align = Align.stretch then
              (width, MeasureMode.exactly)
            else
              (width, if widthMode = MeasureMode.unspecified then MeasureMode.unspecified
                      else MeasureMode.atMost)
        let ch :=
          match getStyleSize params .column with
          | some h => (some h, MeasureMode.exactly)
          | none =>
            if getPerpendicularAxis dir = FlexDirection.column ∧
                heightMode = MeasureMode.exactly ∧ align = Align.stretch then
              (height, MeasureMode.exactly)
            else
              (height, if heightMode = MeasureMode.unspecified then MeasureMode.unspecified
                       else MeasureMode.atMost)
        let m := c.measure cw.1 cw.2 ch.1 ch.2
        let c' : Child :=
          { c with geom := { c.geom with width := m.1, height := m.2 } }
        ((c', getLayoutSize c'.geom dir),
         [Eff.layout (.child i) cw.1 cw.2 ch.1 ch.2])
  let c1 := step.1.1
  let basis := step.1.2
  -- line 114: store the basis in the child's dimension on the main axis
  let c2 : Child := { c1 with geom := setLayoutSize c1.geom dir basis }
  (c2, basis, step.2 ++ [setSizeEff dir (.child i) basis])

/-- The basis-resolution loop (lines 71-120): folds `resolveBasis` over the
children, accumulating `sizeConsumed` and the flex totals.  The accumulation
of the totals is gated on the type-confused `isFlex(child)` read of line 116,
modelled by `Child.memIsFlex`. -/
def basisPass (dir : FlexDirection) (width : F) (widthMode : MeasureMode)
    (height : F) (heightMode : MeasureMode) :
    ℕ → BasisAcc → List Child → List Child × BasisAcc × List Eff
  | _, acc, [] => ([], acc, [])
  | i, acc, c :: cs =>
    let r := resolveBasis dir width widthMode height heightMode i c
    let params := c.params
    let basis := r.2.1
    let acc' : BasisAcc :=
      { sizeConsumed :=
          fadd acc.sizeConsumed (fadd basis (some (getMargin params dir))),
        totalFlexGrowFactors :=
          if c.memIsFlex then acc.totalFlexGrowFactors + getFlexGrowFactor params
          else acc.totalFlexGrowFactors,
        totalFlexShrinkScaledFactors :=
          if c.memIsFlex then
            fadd acc.totalFlexShrinkScaledFactors
              (fmul (some (getFlexShrinkFactor params)) basis)
          else acc.totalFlexShrinkScaledFactors }
    let rest := basisPass dir width widthMode height heightMode (i + 1) acc' cs
    (r.1 :: rest.1, rest.2.1, r.2.2 ++ rest.2.2)

/-! ## Pass 2: flexible distribution and recursive layout (lines 122-173) -/

/-- Line 124: `availableMain ? availableMain - sizeConsumed : 0`. -/
def remainingSpaceOf (availableMain sizeConsumed : F) : F :=
  if fne0 availableMain then fsub availableMain sizeConsumed else some 0

/-- Lines 131-137: the grow/shrink adjustment applied to one child's stored
basis. -/
def distributeChildBasis (remainingSpace : F) (totalFlexGrowFactors : ℚ)
    (totalFlexShrinkScaledFactors : F) (params : FlexParams) (childBasis : F) :
    F :=
  if flt remainingSpace (some 0) then
    let flexShrinkScaledFactor := fmul (some (getFlexShrinkFactor params)) childBasis
    if fne0 flexShrinkScaledFactor then
      fadd childBasis
        (fmul (fdiv remainingSpace totalFlexShrinkScaledFactors)
          flexShrinkScaledFactor)
    else childBasis
  else if fgt remainingSpace (some 0) then
    let flexGrowFactor := getFlexGrowFactor params
    if flexGrowFactor ≠ 0 then
      fadd childBasis
        (fmul (fdiv remainingSpace (some totalFlexGrowFactors))
          (some flexGrowFactor))
    else childBasis
  else childBasis

/-- Lines 139-171: the constraints of the final recursive layout call for one
child, given its (already adjusted) basis.  Returns
`(childWidth, childWidthMode, childHeight, childHeightMode)`.
Note the asymmetry between the two directions taken verbatim from the source:
the `Row` branch tests `!isUndefined(childCrossStyleSize)` (line 145) while
the `Column` branch tests the C truthiness `if (childCrossStyleSize)`
(line 160). -/
def distributionConstraints (dir : FlexDirection) (width : F)
    (widthMode : MeasureMode) (height : F) (heightMode : MeasureMode)
    (params : FlexParams) (childBasis : F) :
    F × MeasureMode × F × MeasureMode :=
  let childCrossStyleSize := getStyleSize params (getPerpendicularAxis dir)
  match dir with
  | .row =>
    let ch :=
      if !isUndefined childCrossStyleSize then
        (childCrossStyleSize, MeasureMode.exactly)
      else
        (height,
         if heightMode = .exactly ∧ getAlign params = .stretch then
           MeasureMode.exactly
         else if heightMode = .unspecified then MeasureMode.unspecified
         else MeasureMode.atMost)
    (childBasis, .exactly, ch.1, ch.2)
  | .column =>
    let cw :=
      if fne0 childCrossStyleSize then
        (childCrossStyleSize, MeasureMode.exactly)
      else
        (width,
         if widthMode = .exactly ∧ getAlign params = .stretch then
           MeasureMode.exactly
         else if widthMode = .unspecified then MeasureMode.unspecified
         else MeasureMode.atMost)
    (cw.1, cw.2, childBasis, .exactly)

/-- The distribution loop (lines 125-173): for each child, read its stored
basis, adjust it, and issue the final recursive layout call. -/
def distributePass (dir : FlexDirection) (width : F) (widthMode : MeasureMode)
    (height : F) (heightMode : MeasureMode) (remainingSpace : F)
    (totalFlexGrowFactors : ℚ) (totalFlexShrinkScaledFactors : F) :
    ℕ → List Child → List Child × List Eff
  | _, [] => ([], [])
  | i, c :: cs =>
    let childBasis := getLayoutSize c.geom dir
    let childBasis' := distributeChildBasis remainingSpace totalFlexGrowFactors
      totalFlexShrinkScaledFactors c.params childBasis
    let k := distributionConstraints dir width widthMode height heightMode
      c.params childBasis'
    let m := c.measure k.1 k.2.1 k.2.2.1 k.2.2.2
    let c' : Child :=
      { c with geom := { c.geom with width := m.1, height := m.2 } }
    let rest := distributePass dir width widthMode height heightMode
      remainingSpace totalFlexGrowFactors totalFlexShrinkScaledFactors (i + 1) cs
    (c' :: rest.1,
     Eff.layout (.child i) k.1 k.2.1 k.2.2.1 k.2.2.2 :: rest.2)

/-! ## Justify offsets (lines 174-192) -/

/-- Lines 176-191: `(leadingMainSize, betweenMain)` according to `justify`.
`ALIGN_STRETCH` has no case in the C `switch`, so it leaves both at `0`. -/
def justifyOffsets (justify : Align) (remainingSpace : F) (childCount : ℕ) :
    F × F :=
  match justify with
  | .start => (some 0, some 0)
  | .center => (fdiv remainingSpace (some 2), some 0)
  | .end_ => (remainingSpace, some 0)
  | .spaceBetween =>
    (some 0,
     if 1 < childCount then fdiv remainingSpace (some ((childCount : ℚ) - 1))
     else some 0)
  | .spaceAround =>
    let betweenMain := fdiv remainingSpace (some (childCount : ℚ))
    (fdiv betweenMain (some 2), betweenMain)
  | .stretch => (some 0, some 0)

/-! ## Pass 3: main-axis placement (lines 194-201) -/

/-- The assignment `crossSize = MAX(crossSize, y)` of line 200, where
`crossSize` is a C `int` and `y` a float: the comparison promotes `crossSize`
to float, and storing the float result truncates it. -/
def cMaxAssign (x : ℤ) (y : F) : ℤ :=
  if fgt (some (x : ℚ)) y then x else ftrunc y

/-- Lines 195-201: walk the children accumulating the main-axis cursor
(`mainSize`, a C `int`) and the content cross size (`crossSize`, a C `int`).
Line 198 adds the *cross*-axis leading margin to the cursor, and line 200
adds the *main*-axis margins to the child's cross size, exactly as in the
source. -/
def placementPass (dir : FlexDirection) (betweenMain : F) :
    ℕ → ℤ → ℤ → List Child → List Child × ℤ × ℤ × List Eff
  | _, mainSize, crossSize, [] => ([], mainSize, crossSize, [])
  | i, mainSize, crossSize, c :: cs =>
    let params := c.params
    let crossAxis := getPerpendicularAxis dir
    let coord : F := some ((mainSize : ℚ) + getLeadingMargin params crossAxis)
    let c' : Child := { c with geom := setLayoutCoord c.geom dir coord }
    let mainSize' : ℤ :=
      ftrunc (fadd (some ((mainSize : ℤ) : ℚ))
        (fadd (fadd betweenMain (getLayoutSize c.geom dir))
          (some (getMargin params dir))))
    let crossSize' : ℤ :=
      cMaxAssign crossSize
        (fadd (getLayoutSize c.geom crossAxis) (some (getMargin params dir)))
    let rest := placementPass dir betweenMain (i + 1) mainSize' crossSize' cs
    (c' :: rest.1, rest.2.1, rest.2.2.1,
     setCoordEff dir (.child i) coord :: rest.2.2.2)

/-! ## Pass 4: cross-axis alignment (lines 207-233) -/

/-- Lines 209-232 for one child: stretch re-layout or leading cross offset,
then the cross-axis coordinate write.  `leadingCrossDim` and
`isCrossSizeDefinite` are C `int`s, so float values assigned to them are
truncated. -/
def crossAlignChild (dir : FlexDirection) (crossSize : ℤ) (i : ℕ) (c : Child) :
    Child × List Eff :=
  let params := c.params
  let crossAxis := getPerpendicularAxis dir
  let align := getAlign params
  let step :=
    if align = .stretch then
      -- lines 213-226
      let isCrossSizeDefinite : ℤ :=
        ftrunc (getStyleSize params (axisValue dir .column .row))
      let cw : F :=
        axisValue dir c.geom.width
          (some ((crossSize : ℚ) - getMargin params .row))
      let ch : F :=
        axisValue dir (some ((crossSize : ℚ) - getMargin params .column))
          c.geom.height
      if isCrossSizeDefinite = 0 then
        let m := c.measure cw .exactly ch .exactly
        let c' : Child :=
          { c with geom := { c.geom with width := m.1, height := m.2 } }
        ((c', (0 : ℤ)), [Eff.layout (.child i) cw .exactly ch .exactly])
      else ((c, 0), [])
    else if align ≠ .start then
      -- lines 227-231
      let remainingCross : F :=
        fadd (fsub (some ((crossSize : ℤ) : ℚ)) (getLayoutSize c.geom crossAxis))
          (some (getMargin params crossAxis))
      if align = .center then ((c, ftrunc (fdiv remainingCross (some 2))), [])
      else if align = .end_ then ((c, ftrunc remainingCross), [])
      else ((c, 0), [])
    else ((c, 0), [])
  let c1 := step.1.1
  let leadingCrossDim : ℤ := step.1.2
  let coord : F := some ((leadingCrossDim : ℚ) + getLeadingMargin params crossAxis)
  let c2 : Child := { c1 with geom := setLayoutCoord c1.geom crossAxis coord }
  (c2, step.2 ++ [setCoordEff crossAxis (.child i) coord])

/-- The cross-axis alignment loop (lines 208-233). -/
def crossAlignPass (dir : FlexDirection) (crossSize : ℤ) :
    ℕ → List Child → List Child × List Eff
  | _, [] => ([], [])
  | i, c :: cs =>
    let r := crossAlignChild dir crossSize i c
    let rest := crossAlignPass dir crossSize (i + 1) cs
    (r.1 :: rest.1, r.2 ++ rest.2)

/-! ## The entry point `layoutFlex` (lines 60-238) -/

/-- The result of one `layoutFlex` invocation: the final children (geometry
included), the container's written-back width and height, and the full trace
of capability uses. -/
structure FlexResult : Type where
  children : List Child
  containerWidth : F
  containerHeight : F
  trace : List Eff

/-- `layoutFlex` (flexLayout.c line 60). -/
def layoutFlex (children : List Child) (width : F) (widthMode : MeasureMode)
    (height : F) (heightMode : MeasureMode) (direction : FlexDirection)
    (justify : Align) : FlexResult :=
  let mainAxis := direction
  let crossAxis := getPerpendicularAxis mainAxis
  let childCount := children.length
  let mainMeasureMode := axisValue mainAxis widthMode heightMode
  let crossMeasureMode := axisValue crossAxis widthMode heightMode
  let availableMain := axisValue mainAxis width height
  let availableCross := axisValue crossAxis width height
  -- Pass 1 (lines 68-120)
  let r1 := basisPass mainAxis width widthMode height heightMode 0
    ⟨some 0, 0, some 0⟩ children
  let acc := r1.2.1
  -- Pass 2 (lines 122-173)
  let remainingSpace := remainingSpaceOf availableMain acc.sizeConsumed
  let r2 := distributePass mainAxis width widthMode height heightMode
    remainingSpace acc.totalFlexGrowFactors acc.totalFlexShrinkScaledFactors
    0 r1.1
  -- Lines 174-192
  let offs :=
    if acc.totalFlexGrowFactors = 0 ∧ fgt remainingSpace (some 0) ∧
        mainMeasureMode = .exactly then
      justifyOffsets justify remainingSpace childCount
    else (some 0, some 0)
  -- Pass 3 (lines 194-201); `int mainSize = leadingMainSize` truncates
  let r3 := placementPass mainAxis offs.2 0 (ftrunc offs.1) 0 r2.1
  -- Lines 203-205
  let mainSize : ℤ :=
    if mainMeasureMode = .exactly then ftrunc availableMain else r3.2.1
  let crossSize : ℤ :=
    if crossMeasureMode = .exactly then ftrunc availableCross else r3.2.2.1
  -- Pass 4 (lines 207-233)
  let r4 := crossAlignPass mainAxis crossSize 0 r3.1
  -- Lines 235-237
  let finalWidth : F := some ((axisValue mainAxis mainSize crossSize : ℤ) : ℚ)
  let finalHeight : F := some ((axisValue mainAxis crossSize mainSize : ℤ) : ℚ)
  { children := r4.1
    containerWidth := finalWidth
    containerHeight := finalHeight
    trace := r1.2.2 ++ r2.2 ++ r3.2.2.2 ++ r4.2 ++
      [Eff.setWidth .container finalWidth, Eff.setHeight .container finalHeight] }

/-! ## Derived notions and concrete instances used by the verification -/

/-- The container's written-back size on the main axis of `dir`. -/
def containerMainSize (dir : FlexDirection) (res : FlexResult) : F :=
  axisValue dir res.containerWidth res.containerHeight

/-- The container's written-back size on the cross axis of `dir`. -/
def containerCrossSize (dir : FlexDirection) (res : FlexResult) : F :=
  axisValue (getPerpendicularAxis dir) res.containerWidth res.containerHeight

/-- The cross-axis component of a `(w, wm, h, hm)` constraint tuple. -/
def crossConstraintOf (dir : FlexDirection)
    (k : F × MeasureMode × F × MeasureMode) : F × MeasureMode :=
  axisValue (getPerpendicularAxis dir) (k.1, k.2.1) (k.2.2.1, k.2.2.2)

/-- The cross-axis constraint of the final recursive layout call as the
amended claim C7 states it: the child's own cross style size is used with
`Exactly` iff it is definite (in `Row` direction), resp. iff it is truthy,
i.e. nonzero or undefined (in `Column` direction); otherwise the container's
available cross size is used, with `Exactly` when the container's cross mode
is `Exactly` and the child aligns `Stretch`, and otherwise with the
container's cross mode inherited (`Unspecified` stays, anything else becomes
`AtMost`). -/
def amendedCrossConstraint (dir : FlexDirection) (width : F)
    (widthMode : MeasureMode) (height : F) (heightMode : MeasureMode)
    (params : FlexParams) : F × MeasureMode :=
  let crossAxis := getPerpendicularAxis dir
  let styleCross := getStyleSize params crossAxis
  let takeStyle : Bool := axisValue dir (!isUndefined styleCross) (fne0 styleCross)
  if takeStyle then (styleCross, .exactly)
  else
    let availableCross := axisValue crossAxis width height
    let crossMode := axisValue crossAxis widthMode heightMode
    if crossMode = MeasureMode.exactly ∧ getAlign params = Align.stretch then
      (availableCross, .exactly)
    else
      (availableCross,
       if crossMode = MeasureMode.unspecified then MeasureMode.unspecified
       else MeasureMode.atMost)

/-- An effect is a write the container is allowed to receive: any size write,
or a position write / layout call that does not target the container. -/
def containerUntouchedExceptSize : Eff → Bool
  | .setWidth _ _ => true
  | .setHeight _ _ => true
  | .setX t _ => t != Target.container
  | .setY t _ => t != Target.container
  | .layout t _ _ _ _ => t != Target.container

/-- An effect applied to some child, not to the container. -/
def childTargeted (e : Eff) : Prop := e.targetOf ≠ Target.container

/-- A geometry with all fields zero, the initial state in concrete runs. -/
def zeroGeom : Geom := ⟨some 0, some 0, some 0, some 0⟩

/-- A host layout callback that adopts exactly the sizes it is given. -/
def honestMeasure : F → MeasureMode → F → MeasureMode → F × F :=
  fun w _ h _ => (w, h)

/-- C2 failing input, first child: `flex = 1`, definite zero width, and the
line-116 misread of its widget memory true. -/
def c2ChildA : Child :=
  ⟨⟨.start, 1, some 0, some 5, 0, 0, 0, 0⟩, zeroGeom, honestMeasure, true⟩

/-- C2 failing input, second child: identical parameters, but the line-116
misread of its widget memory is false, so its grow factor is not
accumulated. -/
def c2ChildB : Child :=
  ⟨⟨.start, 1, some 0, some 5, 0, 0, 0, 0⟩, zeroGeom, honestMeasure, false⟩

/-- C3 failing input, first child: `flex = -1`, definite width `60`, line-116
misread true. -/
def c3ChildA : Child :=
  ⟨⟨.start, -1, some 60, some 5, 0, 0, 0, 0⟩, zeroGeom, honestMeasure, true⟩

/-- C3 failing input, second child: identical, but the line-116 misread is
false, so its shrink-scaled factor is not accumulated. -/
def c3ChildB : Child :=
  ⟨⟨.start, -1, some 60, some 5, 0, 0, 0, 0⟩, zeroGeom, honestMeasure, false⟩

/-- C4 counterexample child: `flex = 1`, definite zero width, well-behaved
widget memory. -/
def c4Child : Child :=
  ⟨⟨.start, 1, some 0, some 5, 0, 0, 0, 0⟩, zeroGeom, honestMeasure, true⟩

/-- C5 failing input child: no main-axis margins, leading cross-axis margin
(`marginTop`) of `5`. -/
def c5Child : Child :=
  ⟨⟨.start, 0, some 30, some 20, 0, 5, 0, 0⟩, zeroGeom, honestMeasure, false⟩

/-- C6 failing input child: cross-axis margins `4 + 6`, no main-axis
margins. -/
def c6Child : Child :=
  ⟨⟨.start, 0, some 30, some 20, 0, 4, 0, 6⟩, zeroGeom, honestMeasure, false⟩

/-- C7 counterexample parameters: a definite *zero* cross style size (the
width, for `Column` direction). -/
def c7Params : FlexParams := ⟨.start, 0, some 0, none, 0, 0, 0, 0⟩

/-- C8 failing input child: aligned `Center`, definite `50`-by-`50` style,
cross-axis margins `4 + 6`. -/
def c8Child : Child :=
  ⟨⟨.center, 0, some 50, some 50, 0, 4, 0, 6⟩, zeroGeom, honestMeasure, false⟩

/-- C9 counterexample child: undefined width and height, `flex = -1`
(flex-eligible but auto-basis by the source's `flex <= 0` test), whose
measurement returns a width of `30`. -/
def c9Child : Child :=
  ⟨⟨.start, -1, none, none, 0, 0, 0, 0⟩, zeroGeom,
   fun _ _ _ _ => (some 30, some 10), true⟩

/-! ## Evaluation lemmas for the float model -/

@[simp] theorem fadd_some (a b : ℚ) : fadd (some a) (some b) = some (a + b) := rfl

@[simp] theorem fadd_none_left (x : F) : fadd none x = none := rfl

@[simp] theorem fadd_none_right (x : F) : fadd x none = none := by
  cases x <;> rfl

@[simp] theorem fsub_some (a b : ℚ) : fsub (some a) (some b) = some (a - b) := rfl

@[simp] theorem fsub_none_left (x : F) : fsub none x = none := rfl

@[simp] theorem fsub_none_right (x : F) : fsub x none = none := by
  cases x <;> rfl

@[simp] theorem fmul_some (a b : ℚ) : fmul (some a) (some b) = some (a * b) := rfl

@[simp] theorem fmul_none_left (x : F) : fmul none x = none := rfl

@[simp] theorem fmul_none_right (x : F) : fmul x none = none := by
  cases x <;> rfl

@[simp] theorem fdiv_some (a b : ℚ) :
    fdiv (some a) (some b) = if b = 0 then none else some (a / b) := rfl

@[simp] theorem fdiv_none_left (x : F) : fdiv none x = none := rfl

@[simp] theorem fdiv_none_right (x : F) : fdiv x none = none := by
  cases x <;> rfl

@[simp] theorem flt_some (a b : ℚ) : flt (some a) (some b) = decide (a < b) := rfl

@[simp] theorem flt_none_left (x : F) : flt none x = false := rfl

@[simp] theorem flt_none_right (x : F) : flt x none = false := by
  cases x <;> rfl

@[simp] theorem fgt_some (a b : ℚ) : fgt (some a) (some b) = decide (b < a) := rfl

@[simp] theorem fgt_none_left (x : F) : fgt none x = false := rfl

@[simp] theorem fgt_none_right (x : F) : fgt x none = false := by
  cases x <;> rfl

@[simp] theorem fne0_some (a : ℚ) : fne0 (some a) = decide ¬(a = 0) := rfl

@[simp] theorem fne0_none : fne0 none = true := rfl

@[simp] theorem isUndefined_some (a : ℚ) : isUndefined (some a) = false := rfl

@[simp] theorem isUndefined_none : isUndefined none = true := rfl

@[simp] theorem ftrunc_some (q : ℚ) : ftrunc (some q) = rtrunc q := rfl

@[simp] theorem ftrunc_none : ftrunc none = 0 := rfl

@[simp] theorem rtrunc_intCast (n : ℤ) : rtrunc ((n : ℤ) : ℚ) = n := by
  unfold rtrunc
  split <;> simp

@[simp] theorem rtrunc_natCast (n : ℕ) : rtrunc ((n : ℕ) : ℚ) = (n : ℤ) := by
  unfold rtrunc
  rw [if_pos (by positivity)]
  exact Int.floor_natCast n

@[simp] theorem rtrunc_zero : rtrunc 0 = 0 := by
  simpa using rtrunc_natCast 0

@[simp] theorem rtrunc_one : rtrunc 1 = 1 := by
  simpa using rtrunc_natCast 1

@[simp] theorem rtrunc_ofNat (n : ℕ) [n.AtLeastTwo] :
    rtrunc (OfNat.ofNat n : ℚ) = OfNat.ofNat n := by
  rw [← @Nat.cast_ofNat ℚ n _ _, rtrunc_natCast, @Nat.cast_ofNat ℤ n _ _]

@[simp] theorem axisValue_row {α : Type} (a b : α) : axisValue .row a b = a := rfl

@[simp] theorem axisValue_column {α : Type} (a b : α) :
    axisValue .column a b = b := rfl

@[simp] theorem getPerpendicularAxis_row : getPerpendicularAxis .row = .column := rfl

@[simp] theorem getPerpendicularAxis_column :
    getPerpendicularAxis .column = .row := rfl

/-! ## Claim theorems -/

/-- C1, counterexample: with main mode `Exactly` and available main size
`201/2`, the container's final main size written back is `100` — the
available size truncated by the C `int` declaration of `mainSize`
(line 194) — not `201/2`, so the claimed equality fails for fractional
available sizes. -/
theorem c1_counterexample :
    (layoutFlex [] (some (201 / 2)) .exactly none .unspecified .row
        .start).containerWidth = some 100 ∧
    (some (100 : ℚ) : F) ≠ some (201 / 2) := by
  have ht : rtrunc (201 / 2 : ℚ) = 100 := by
    unfold rtrunc
    rw [if_pos (by norm_num), Int.floor_eq_iff]
    norm_num
  constructor
  · simp [layoutFlex, basisPass, distributePass, placementPass, crossAlignPass,
      remainingSpaceOf, justifyOffsets, ht]
  · simp only [ne_eq, Option.some.injEq]
    norm_num

/-- C1, amended: when the main (resp. cross) measure mode is `Exactly` and
the available main (resp. cross) size is a finite value `q`, the container's
final size on that axis is `q` truncated toward zero — lines 194 and 204-205
store the final sizes in C `int`s — regardless of the children.  The original
claim's exact equality holds precisely when the available size is integral. -/
theorem c1_exact_mode_writes_truncated_available (children : List Child)
    (w : F) (wm : MeasureMode) (h : F) (hm : MeasureMode) (dir : FlexDirection)
    (j : Align) (q r : ℚ) :
    (axisValue dir wm hm = MeasureMode.exactly → axisValue dir w h = some q →
      containerMainSize dir (layoutFlex children w wm h hm dir j) =
        some ((rtrunc q : ℤ) : ℚ)) ∧
    (axisValue (getPerpendicularAxis dir) wm hm = MeasureMode.exactly →
      axisValue (getPerpendicularAxis dir) w h = some r →
      containerCrossSize dir (layoutFlex children w wm h hm dir j) =
        some ((rtrunc r : ℤ) : ℚ)) := by
  constructor
  · intro h1 h2
    cases dir <;> simp only [axisValue_row, axisValue_column] at h1 h2 <;>
      simp [containerMainSize, layoutFlex, h1, h2]
  · intro h1 h2
    cases dir <;>
      simp only [axisValue_row, axisValue_column, getPerpendicularAxis_row,
        getPerpendicularAxis_column] at h1 h2 <;>
      simp [containerCrossSize, layoutFlex, h1, h2]

/-- C1, witness for the amended theorem: a childless row container measured
exactly at `7` by `3` gets width `7` and height `3` written back. -/
theorem c1_witness :
    containerMainSize .row
        (layoutFlex [] (some 7) .exactly (some 3) .exactly .row .start) =
      some ((rtrunc 7 : ℤ) : ℚ) ∧
    containerCrossSize .row
        (layoutFlex [] (some 7) .exactly (some 3) .exactly .row .start) =
      some ((rtrunc 3 : ℤ) : ℚ) :=
  ⟨(c1_exact_mode_writes_truncated_available [] (some 7) .exactly (some 3)
      .exactly .row .start 7 3).1 rfl rfl,
   (c1_exact_mode_writes_truncated_available [] (some 7) .exactly (some 3)
      .exactly .row .start 7 3).2 rfl rfl⟩

/-- C2, evaluation at the failing input: two identical children with
`flex = 1` and definite zero width in a row of exact width `10`, where the
line-116 `isFlex(child)` misread of the second child's widget memory is
false.  The accumulated `totalFlexGrowFactors` is then `1` although both
children have grow factor `1`, the remaining space is `10`, and — as the
trace shows — both children are laid out with main size `10` from a stored
basis of `0`: the sum of the increases is `(10 - 0) + (10 - 0) = 20`, not the
remaining space `10`. -/
theorem c2_eval_at_failing_input :
    (basisPass .row (some 10) .exactly none .unspecified 0 ⟨some 0, 0, some 0⟩
        [c2ChildA, c2ChildB]).2.1.totalFlexGrowFactors = 1 ∧
    remainingSpaceOf (some 10)
        (basisPass .row (some 10) .exactly none .unspecified 0
          ⟨some 0, 0, some 0⟩ [c2ChildA, c2ChildB]).2.1.sizeConsumed =
      some 10 ∧
    (layoutFlex [c2ChildA, c2ChildB] (some 10) .exactly none .unspecified .row
        .start).trace =
      [Eff.setWidth (.child 0) (some 0), Eff.setWidth (.child 1) (some 0),
       Eff.layout (.child 0) (some 10) .exactly (some 5) .exactly,
       Eff.layout (.child 1) (some 10) .exactly (some 5) .exactly,
       Eff.setX (.child 0) (some 0), Eff.setX (.child 1) (some 10),
       Eff.setY (.child 0) (some 0), Eff.setY (.child 1) (some 0),
       Eff.setWidth .container (some 10), Eff.setHeight .container (some 5)] ∧
    ((10 : ℚ) - 0) + ((10 : ℚ) - 0) ≠ 10 := by
  refine ⟨?_, ?_, ?_, by norm_num⟩ <;>
    norm_num +decide [layoutFlex, basisPass, resolveBasis, distributePass,
      distributionConstraints, distributeChildBasis, placementPass,
      crossAlignPass, crossAlignChild, justifyOffsets, remainingSpaceOf,
      cMaxAssign, c2ChildA, c2ChildB, honestMeasure, zeroGeom, getStyleSize,
      getMargin, getLeadingMargin, getTrailingMargin, getFlexGrowFactor,
      getFlexShrinkFactor, getFlex, getAlign, isFlexBasisAuto, isFlex,
      getLayoutSize, setLayoutSize, setLayoutCoord, setSizeEff, setCoordEff,
      rtrunc]

/-- C3, evaluation at the failing input: two identical children with
`flex = -1` and definite width `60` in a row of exact width `100`, where the
line-116 `isFlex(child)` misread of the second child's widget memory is
false.  The accumulated `totalFlexShrinkScaledFactors` is then `60` although
both children have shrink-scaled factor `60`; the remaining space is `-20`,
and — as the trace shows — both children are laid out with main size `40`
from a stored basis of `60`: the sum of the decreases is
`(60 - 40) + (60 - 40) = 40`, not `|remainingSpace| = 20`. -/
theorem c3_eval_at_failing_input :
    (basisPass .row (some 100) .exactly none .unspecified 0 ⟨some 0, 0, some 0⟩
        [c3ChildA, c3ChildB]).2.1.totalFlexShrinkScaledFactors = some 60 ∧
    remainingSpaceOf (some 100)
        (basisPass .row (some 100) .exactly none .unspecified 0
          ⟨some 0, 0, some 0⟩ [c3ChildA, c3ChildB]).2.1.sizeConsumed =
      some (-20) ∧
    (layoutFlex [c3ChildA, c3ChildB] (some 100) .exactly none .unspecified .row
        .start).trace =
      [Eff.setWidth (.child 0) (some 60), Eff.setWidth (.child 1) (some 60),
       Eff.layout (.child 0) (some 40) .exactly (some 5) .exactly,
       Eff.layout (.child 1) (some 40) .exactly (some 5) .exactly,
       Eff.setX (.child 0) (some 0), Eff.setX (.child 1) (some 40),
       Eff.setY (.child 0) (some 0), Eff.setY (.child 1) (some 0),
       Eff.setWidth .container (some 100), Eff.setHeight .container (some 5)] ∧
    ((60 : ℚ) - 40) + ((60 : ℚ) - 40) ≠ 20 := by
  refine ⟨?_, ?_, ?_, by norm_num⟩ <;>
    norm_num +decide [layoutFlex, basisPass, resolveBasis, distributePass,
      distributionConstraints, distributeChildBasis, placementPass,
      crossAlignPass, crossAlignChild, justifyOffsets, remainingSpaceOf,
      cMaxAssign, c3ChildA, c3ChildB, honestMeasure, zeroGeom, getStyleSize,
      getMargin, getLeadingMargin, getTrailingMargin, getFlexGrowFactor,
      getFlexShrinkFactor, getFlex, getAlign, isFlexBasisAuto, isFlex,
      getLayoutSize, setLayoutSize, setLayoutCoord, setSizeEff, setCoordEff,
      rtrunc]

/-- C4, counterexample: with main measure mode `Unspecified` but a definite
nonzero main-axis size argument of `100`, a single `flex = 1` child with
stored basis `0` (first trace event) is laid out with main size `100` (second
trace event): grow distribution does occur, because line 124 guards on the
numeric value `availableMain` being truthy, not on the measure mode. -/
theorem c4_counterexample :
    (layoutFlex [c4Child] (some 100) .unspecified none .unspecified .row
        .start).trace =
      [Eff.setWidth (.child 0) (some 0),
       Eff.layout (.child 0) (some 100) .exactly (some 5) .exactly,
       Eff.setX (.child 0) (some 0), Eff.setY (.child 0) (some 0),
       Eff.setWidth .container (some 100), Eff.setHeight .container (some 5)] ∧
    (some (100 : ℚ) : F) ≠ some 0 := by
  refine ⟨?_, by simp⟩
  norm_num +decide [layoutFlex, basisPass, resolveBasis, distributePass,
    distributionConstraints, distributeChildBasis, placementPass,
    crossAlignPass, crossAlignChild, justifyOffsets, remainingSpaceOf,
    cMaxAssign, c4Child, honestMeasure, zeroGeom, getStyleSize, getMargin,
    getLeadingMargin, getTrailingMargin, getFlexGrowFactor,
    getFlexShrinkFactor, getFlex, getAlign, isFlexBasisAuto, isFlex,
    getLayoutSize, setLayoutSize, setLayoutCoord, setSizeEff, setCoordEff,
    rtrunc]

/-- C4, amended: no grow or shrink adjustment is applied to any child's basis
whenever the container's available main-axis size is `0` or undefined — the
guard of line 124 is the C truthiness of the size value, not the measure
mode, and an undefined (NaN) size propagates into a NaN `remainingSpace`
whose sign tests both fail. -/
theorem c4_no_distribution_when_main_zero_or_undefined (availableMain : F)
    (hA : availableMain = some 0 ∨ availableMain = none) (sizeConsumed : F)
    (totalGrow : ℚ) (totalShrink : F) (params : FlexParams) (basis : F) :
    distributeChildBasis (remainingSpaceOf availableMain sizeConsumed)
      totalGrow totalShrink params basis = basis := by
  rcases hA with h | h <;> subst h
  · simp [remainingSpaceOf, distributeChildBasis]
  · cases sizeConsumed <;> simp [remainingSpaceOf, distributeChildBasis]

/-- C4, witness for the amended theorem: a flexible child's basis of `7` is
left untouched when the available main size is `0` despite positive
`sizeConsumed` and flex weights. -/
theorem c4_witness :
    distributeChildBasis (remainingSpaceOf (some 0) (some 40)) 1 (some 2)
      ⟨.start, 1, none, none, 0, 0, 0, 0⟩ (some 7) = some 7 :=
  c4_no_distribution_when_main_zero_or_undefined (some 0) (Or.inl rfl)
    (some 40) 1 (some 2) ⟨.start, 1, none, none, 0, 0, 0, 0⟩ (some 7)

/-- C5, evaluation at the failing input: a row child with `marginLeft = 0`
and `marginTop = 5`, justify `Start` (leading offset `0`).  Line 198 adds
`getLeadingMargin(params, crossAxis)` — the *cross*-axis leading margin — to
the cursor, so the child's x-coordinate is `0 + marginTop = 5`, whereas the
claim's `cursor + leading main-axis margin` is `0 + marginLeft = 0`.  This
also contradicts the header's documentation of `ALIGN_START` (the start
*margin* edge flush with the start edge requires `x = marginLeft`). -/
theorem c5_eval_at_failing_input :
    ((layoutFlex [c5Child] (some 100) .exactly (some 50) .exactly .row
        .start).children.map fun c => c.geom.x) = [some 5] ∧
    c5Child.params.marginLeft = 0 ∧ c5Child.params.marginTop = 5 ∧
    (some (5 : ℚ) : F) ≠ some 0 := by
  refine ⟨?_, rfl, rfl, by simp⟩
  norm_num +decide [layoutFlex, basisPass, resolveBasis, distributePass,
    distributionConstraints, distributeChildBasis, placementPass,
    crossAlignPass, crossAlignChild, justifyOffsets, remainingSpaceOf,
    cMaxAssign, c5Child, honestMeasure, zeroGeom, getStyleSize, getMargin,
    getLeadingMargin, getTrailingMargin, getFlexGrowFactor,
    getFlexShrinkFactor, getFlex, getAlign, isFlexBasisAuto, isFlex,
    getLayoutSize, setLayoutSize, setLayoutCoord, setSizeEff, setCoordEff,
    rtrunc]

/-- C6, evaluation at the failing input: a row child whose final cross size
is `20` with cross-axis margins `4 + 6 = 10` and no main-axis margins, in a
container whose cross mode is not `Exactly`.  Line 200 computes the content
cross size with `getMargin(params, mainAxis)` — the *main*-axis margins — so
the container's written-back height is `20`, not the claimed
`20 + 10 = 30`. -/
theorem c6_eval_at_failing_input :
    (layoutFlex [c6Child] (some 100) .exactly none .unspecified .row
        .start).containerHeight = some 20 ∧
    getMargin c6Child.params .column = 10 ∧
    (some (20 : ℚ) : F) ≠ some (20 + 10) := by
  refine ⟨?_, by norm_num [getMargin, getLeadingMargin, getTrailingMargin,
    c6Child], by simp⟩
  norm_num +decide [layoutFlex, basisPass, resolveBasis, distributePass,
    distributionConstraints, distributeChildBasis, placementPass,
    crossAlignPass, crossAlignChild, justifyOffsets, remainingSpaceOf,
    cMaxAssign, c6Child, honestMeasure, zeroGeom, getStyleSize, getMargin,
    getLeadingMargin, getTrailingMargin, getFlexGrowFactor,
    getFlexShrinkFactor, getFlex, getAlign, isFlexBasisAuto, isFlex,
    getLayoutSize, setLayoutSize, setLayoutCoord, setSizeEff, setCoordEff,
    rtrunc]

/-- C8, evaluation at the failing input: a `Center`-aligned row child of
final cross size `50` with cross margins `4 + 6 = 10` (leading `4`) in a
container of exact cross size `100`.  Line 228 computes
`crossSize - childCross + crossMargins = 100 - 50 + 10 = 60`, so the child's
y-coordinate is `60 / 2 + 4 = 34`, whereas the claim's
`(crossSize - childCross - crossMargins) / 2 + 4` is `24`.  The code's `+`
also contradicts the header's documentation of `ALIGN_END` (the end margin
edge flush with the end edge). -/
theorem c8_eval_at_failing_input :
    ((layoutFlex [c8Child] (some 100) .exactly (some 100) .exactly .row
        .start).children.map fun c => c.geom.y) = [some 34] ∧
    ((100 : ℚ) - 50 - 10) / 2 + 4 = 24 ∧
    (some (34 : ℚ) : F) ≠ some 24 := by
  refine ⟨?_, by norm_num, by simp⟩
  norm_num +decide [layoutFlex, basisPass, resolveBasis, distributePass,
    distributionConstraints, distributeChildBasis, placementPass,
    crossAlignPass, crossAlignChild, justifyOffsets, remainingSpaceOf,
    cMaxAssign, c8Child, honestMeasure, zeroGeom, getStyleSize, getMargin,
    getLeadingMargin, getTrailingMargin, getFlexGrowFactor,
    getFlexShrinkFactor, getFlex, getAlign, isFlexBasisAuto, isFlex,
    getLayoutSize, setLayoutSize, setLayoutCoord, setSizeEff, setCoordEff,
    rtrunc]

/-- C7, counterexample: in `Column` direction a child with a *definite zero*
cross style size (width `0`) does not get `Exactly(0)`: line 160 tests the C
truthiness `if (childCrossStyleSize)`, which is false at `0`, so the final
layout call inherits the container's `AtMost` width mode instead.  The
claimed "Exactly iff definite" equivalence fails in the `Column`
direction. -/
theorem c7_counterexample :
    getStyleSize c7Params (getPerpendicularAxis .column) = some 0 ∧
    (distributionConstraints .column (some 80) .atMost none .unspecified
        c7Params (some 40)).2.1 = MeasureMode.atMost ∧
    MeasureMode.atMost ≠ MeasureMode.exactly := by
  refine ⟨rfl, ?_, by decide⟩
  norm_num +decide [distributionConstraints, c7Params, getStyleSize, getAlign]

/-- C7, amended: the cross-axis constraint of the final recursive layout call
(lines 139-171) equals the amended description: the child's cross style size
with `Exactly` iff that size is definite in `Row` direction, resp. truthy
(nonzero or undefined) in `Column` direction; otherwise the container's
available cross size, with `Exactly` iff the container's cross mode is
`Exactly` and the child aligns `Stretch`, and otherwise with the container's
mode inherited as `Unspecified`/`AtMost`. -/
theorem c7_cross_constraint_characterization (dir : FlexDirection) (w : F)
    (wm : MeasureMode) (h : F) (hm : MeasureMode) (params : FlexParams)
    (childBasis : F) :
    crossConstraintOf dir
        (distributionConstraints dir w wm h hm params childBasis) =
      amendedCrossConstraint dir w wm h hm params := by
  cases dir <;>
    simp only [crossConstraintOf, distributionConstraints,
      amendedCrossConstraint, axisValue_row, axisValue_column,
      getPerpendicularAxis_row, getPerpendicularAxis_column] <;>
    split_ifs <;> rfl

/-- C9, counterexample: a child with undefined main style size, `flex = -1`
(flex-eligible in the claim's sense) and a definite nonzero available main
size `100` is *measured*: line 79 tests `!isFlexBasisAuto(params)`, i.e.
`flex > 0`, not `flex != 0`, so a shrink-only item falls through to the
measurement branch, a layout call is issued, and its basis is the measured
`30`, not `0`. -/
theorem c9_counterexample :
    c9Child.params.flex ≠ 0 ∧
    getStyleSize c9Child.params .row = none ∧
    (resolveBasis .row (some 100) .atMost none .unspecified 0 c9Child).2.1 =
      some 30 ∧
    (resolveBasis .row (some 100) .atMost none .unspecified 0 c9Child).2.2 =
      [Eff.layout (.child 0) (some 100) .atMost none .unspecified,
       Eff.setWidth (.child 0) (some 30)] ∧
    (some (30 : ℚ) : F) ≠ some 0 := by
  refine ⟨by norm_num [c9Child], rfl, ?_, ?_, by simp⟩ <;>
    norm_num +decide [resolveBasis, c9Child, getStyleSize, getAlign, getFlex,
      isFlexBasisAuto, getLayoutSize, setLayoutSize, setSizeEff]

/-- C9, amended: for a child whose main-axis style size is undefined, if
`flex > 0` (the source's `!isFlexBasisAuto`, not the claim's `flex ≠ 0`) and
the container's available main size is a definite nonzero value, the resolved
basis is `0` and no measurement layout call is issued: the child's only
basis-pass effect is the store of the zero basis. -/
theorem c9_positive_flex_defers_sizing (dir : FlexDirection) (w : F)
    (wm : MeasureMode) (h : F) (hm : MeasureMode) (i : ℕ) (c : Child) (q : ℚ)
    (h1 : getStyleSize c.params dir = none) (h2 : 0 < c.params.flex)
    (h3 : axisValue dir w h = some q) (h4 : q ≠ 0) :
    (resolveBasis dir w wm h hm i c).2.1 = some 0 ∧
    (resolveBasis dir w wm h hm i c).2.2 =
      [setSizeEff dir (.child i) (some 0)] := by
  have hb : isFlexBasisAuto c.params = false := by
    simp [isFlexBasisAuto, getFlex, not_le]
    exact h2
  have hf : fne0 (axisValue dir w h) = true := by
    rw [h3]
    simp [h4]
  constructor <;> simp [resolveBasis, h1, hb, hf]

/-- C9, witness for the amended theorem: a `flex = 2` child with undefined
width in a row with available width `100` gets basis `0` and no measurement
call. -/
theorem c9_witness :
    (resolveBasis .row (some 100) .atMost none .unspecified 0
        ⟨⟨.start, 2, none, none, 0, 0, 0, 0⟩, zeroGeom, honestMeasure,
         true⟩).2.1 = some 0 ∧
    (resolveBasis .row (some 100) .atMost none .unspecified 0
        ⟨⟨.start, 2, none, none, 0, 0, 0, 0⟩, zeroGeom, honestMeasure,
         true⟩).2.2 = [setSizeEff .row (.child 0) (some 0)] :=
  c9_positive_flex_defers_sizing .row (some 100) .atMost none .unspecified 0
    ⟨⟨.start, 2, none, none, 0, 0, 0, 0⟩, zeroGeom, honestMeasure, true⟩ 100
    rfl (by norm_num) rfl (by norm_num)

/-! ## C10: frame condition on the container -/

theorem child_ne_container (i : ℕ) : Target.child i ≠ Target.container :=
  fun hc => Target.noConfusion hc

@[simp] theorem targetOf_setSizeEff (a : FlexDirection) (t : Target) (v : F) :
    (setSizeEff a t v).targetOf = t := by
  cases a <;> rfl

@[simp] theorem targetOf_setCoordEff (a : FlexDirection) (t : Target) (v : F) :
    (setCoordEff a t v).targetOf = t := by
  cases a <;> rfl

theorem containerUntouchedExceptSize_of_child (e : Eff) (i : ℕ)
    (h : e.targetOf = Target.child i) :
    containerUntouchedExceptSize e = true := by
  cases e <;>
    simp only [Eff.targetOf] at h <;>
    simp [containerUntouchedExceptSize, h, bne_iff_ne, child_ne_container]

theorem resolveBasis_targets (dir : FlexDirection) (w : F) (wm : MeasureMode)
    (h : F) (hm : MeasureMode) (i : ℕ) (c : Child) :
    ∀ e ∈ (resolveBasis dir w wm h hm i c).2.2,
      e.targetOf = Target.child i := by
  intro e he
  simp only [resolveBasis, List.mem_append] at he
  rcases he with he | he
  · rcases hs : getStyleSize c.params dir with _ | s <;> rw [hs] at he <;>
      simp at he
    split at he <;> simp at he
    rw [he]
    rfl
  · simp at he
    rw [he]
    simp

theorem basisPass_targets (dir : FlexDirection) (w : F) (wm : MeasureMode)
    (h : F) (hm : MeasureMode) :
    ∀ (cs : List Child) (i : ℕ) (acc : BasisAcc),
      ∀ e ∈ (basisPass dir w wm h hm i acc cs).2.2,
        ∃ j, e.targetOf = Target.child j := by
  intro cs
  induction cs with
  | nil => intro i acc e he; simp [basisPass] at he
  | cons c cs ih =>
    intro i acc e he
    simp only [basisPass, List.mem_append] at he
    rcases he with he | he
    · exact ⟨i, resolveBasis_targets dir w wm h hm i c e he⟩
    · exact ih (i + 1) _ e he

theorem distributePass_targets (dir : FlexDirection) (w : F)
    (wm : MeasureMode) (h : F) (hm : MeasureMode) (r : F) (tG : ℚ) (tS : F) :
    ∀ (cs : List Child) (i : ℕ),
      ∀ e ∈ (distributePass dir w wm h hm r tG tS i cs).2,
        ∃ j, e.targetOf = Target.child j := by
  intro cs
  induction cs with
  | nil => intro i e he; simp [distributePass] at he
  | cons c cs ih =>
    intro i e he
    simp only [distributePass, List.mem_cons] at he
    rcases he with he | he
    · exact ⟨i, by rw [he]; rfl⟩
    · exact ih (i + 1) e he

theorem placementPass_targets (dir : FlexDirection) (b : F) :
    ∀ (cs : List Child) (i : ℕ) (ms cs' : ℤ),
      ∀ e ∈ (placementPass dir b i ms cs' cs).2.2.2,
        ∃ j, e.targetOf = Target.child j := by
  intro cs
  induction cs with
  | nil => intro i ms cs' e he; simp [placementPass] at he
  | cons c cs ih =>
    intro i ms cs' e he
    simp only [placementPass, List.mem_cons] at he
    rcases he with he | he
    · exact ⟨i, by rw [he]; simp⟩
    · exact ih (i + 1) _ _ e he

theorem crossAlignChild_targets (dir : FlexDirection) (cs : ℤ) (i : ℕ)
    (c : Child) :
    ∀ e ∈ (crossAlignChild dir cs i c).2, e.targetOf = Target.child i := by
  intro e he
  simp only [crossAlignChild, List.mem_append] at he
  rcases he with he | he
  · repeat' split at he
    all_goals simp at he
    all_goals subst he
    all_goals rfl
  · simp at he
    rw [he]
    simp

theorem crossAlignPass_targets (dir : FlexDirection) (cSize : ℤ) :
    ∀ (cs : List Child) (i : ℕ),
      ∀ e ∈ (crossAlignPass dir cSize i cs).2,
        ∃ j, e.targetOf = Target.child j := by
  intro cs
  induction cs with
  | nil => intro i e he; simp [crossAlignPass] at he
  | cons c cs ih =>
    intro i e he
    simp only [crossAlignPass, List.mem_append] at he
    rcases he with he | he
    · exact ⟨i, crossAlignChild_targets dir cSize i c e he⟩
    · exact ih (i + 1) e he

/-- C10: in every invocation of `layoutFlex`, every effect in the trace that
targets the container is a `setWidth` or a `setHeight`; `setX`, `setY` and
`layout` are only ever applied to children, so the container's own x and y
position fields are never written. -/
theorem c10_container_position_never_written (children : List Child) (w : F)
    (wm : MeasureMode) (h : F) (hm : MeasureMode) (dir : FlexDirection)
    (j : Align) :
    (layoutFlex children w wm h hm dir j).trace.all
      containerUntouchedExceptSize = true := by
  rw [List.all_eq_true]
  intro e he
  simp only [layoutFlex, List.mem_append, List.mem_cons,
    List.not_mem_nil, or_false] at he
  rcases he with (((he | he) | he) | he) | he | he
  · obtain ⟨i, hi⟩ := basisPass_targets dir w wm h hm _ _ _ e he
    exact containerUntouchedExceptSize_of_child e i hi
  · obtain ⟨i, hi⟩ := distributePass_targets dir w wm h hm _ _ _ _ _ e he
    exact containerUntouchedExceptSize_of_child e i hi
  · obtain ⟨i, hi⟩ := placementPass_targets dir _ _ _ _ _ e he
    exact containerUntouchedExceptSize_of_child e i hi
  · obtain ⟨i, hi⟩ := crossAlignPass_targets dir _ _ _ e he
    exact containerUntouchedExceptSize_of_child e i hi
  · rw [he]; rfl
  · rw [he]; rfl

/-! ## Supporting conservation facts

With the accumulation gate of line 116 corrected to read the child's own
parameters — equivalently, with every child's widget memory misread agreeing
with `isFlex params`, in which case the gate is a no-op because the
accumulated terms vanish for non-flex children — the distribution pass
conserves the remaining space exactly.  These facts show that claims C2 and
C3 describe the evident intent of the code, which the type-confused gate
breaks. -/

theorem distributeChildBasis_grow_increment (r tG : ℚ) (tS : F)
    (params : FlexParams) (b : ℚ) (hr : 0 < r) (h0 : tG ≠ 0) :
    (distributeChildBasis (some r) tG tS params (some b)).getD 0 - b =
      r / tG * getFlexGrowFactor params := by
  by_cases hg : getFlexGrowFactor params = 0 <;>
    simp [distributeChildBasis, lt_asymm hr, hr, h0, hg]

theorem grow_conservation_with_correct_gate (ps : List (FlexParams × ℚ))
    (r : ℚ) (hr : 0 < r)
    (h0 : (ps.map fun p => getFlexGrowFactor p.1).sum ≠ 0) (tS : F) :
    (ps.map fun p =>
        (distributeChildBasis (some r)
            ((ps.map fun p => getFlexGrowFactor p.1).sum) tS p.1
          (some p.2)).getD 0 - p.2).sum = r := by
  have hterm : ∀ p : FlexParams × ℚ,
      (distributeChildBasis (some r)
          ((ps.map fun p => getFlexGrowFactor p.1).sum) tS p.1
        (some p.2)).getD 0 - p.2 =
        r / ((ps.map fun p => getFlexGrowFactor p.1).sum) *
          getFlexGrowFactor p.1 :=
    fun p => distributeChildBasis_grow_increment _ _ tS p.1 p.2 hr h0
  calc (ps.map fun p =>
          (distributeChildBasis (some r)
              ((ps.map fun p => getFlexGrowFactor p.1).sum) tS p.1
            (some p.2)).getD 0 - p.2).sum
      = (ps.map fun p =>
          r / ((ps.map fun p => getFlexGrowFactor p.1).sum) *
            getFlexGrowFactor p.1).sum := by
        exact congrArg List.sum (List.map_congr_left fun p _ => hterm p)
    _ = r := by
        rw [List.sum_map_mul_left]
        field_simp

theorem distributeChildBasis_shrink_decrement (r t : ℚ) (tG : ℚ)
    (params : FlexParams) (b : ℚ) (hr : r < 0) (h0 : t ≠ 0) :
    b - (distributeChildBasis (some r) tG (some t) params (some b)).getD 0 =
      -(r / t) * (getFlexShrinkFactor params * b) := by
  by_cases hs : getFlexShrinkFactor params * b = 0 <;>
    simp [distributeChildBasis, hr, h0, hs]

theorem shrink_conservation_with_correct_gate (ps : List (FlexParams × ℚ))
    (r : ℚ) (hr : r < 0) (tG : ℚ)
    (h0 : (ps.map fun p => getFlexShrinkFactor p.1 * p.2).sum ≠ 0) :
    (ps.map fun p => p.2 -
        (distributeChildBasis (some r) tG
            (some ((ps.map fun p => getFlexShrinkFactor p.1 * p.2).sum)) p.1
          (some p.2)).getD 0).sum = -r := by
  have hterm : ∀ p : FlexParams × ℚ,
      p.2 - (distributeChildBasis (some r) tG
          (some ((ps.map fun p => getFlexShrinkFactor p.1 * p.2).sum)) p.1
        (some p.2)).getD 0 =
        -(r / ((ps.map fun p => getFlexShrinkFactor p.1 * p.2).sum)) *
          (getFlexShrinkFactor p.1 * p.2) :=
    fun p => distributeChildBasis_shrink_decrement _ _ tG p.1 p.2 hr h0
  calc (ps.map fun p => p.2 -
          (distributeChildBasis (some r) tG
              (some ((ps.map fun p => getFlexShrinkFactor p.1 * p.2).sum)) p.1
            (some p.2)).getD 0).sum
      = (ps.map fun p =>
          -(r / ((ps.map fun p => getFlexShrinkFactor p.1 * p.2).sum)) *
            (getFlexShrinkFactor p.1 * p.2)).sum := by
        exact congrArg List.sum (List.map_congr_left fun p _ => hterm p)
    _ = -r := by
        rw [List.sum_map_mul_left]
        field_simp
